import Mathlib

/-!
# Verification of the corpus-speech TTS facade

A shallow embedding of `src/corpus_speech.py` (class `TextToSpeech`) and the
relevant boundary behaviour of `src/app.py` / `src/app_swagger.py`.

Python state is passed explicitly: the `TextToSpeech` structure mirrors the
object's fields (`config`, `pyttsx3_engine`, `hume_client`); the external
world (environment variables, the Hume SDK, pyttsx3, pygame, the on-disk
voice cache) is an `Env` record consulted where the Python code performs I/O.
Python exceptions are modelled with `Except PyError`; Python string
truthiness (`None` and `""` are falsy) is modelled by `pyFalsy`.
-/

deriving instance DecidableEq for Except

namespace CorpusSpeech

/-- Python exception kinds raised by the code paths we model. -/
inductive PyError where
  /-- Python `ValueError("HUME_API_KEY not found ...")` from `_initialize_hume`. -/
  | valueError
  /-- The `HumeClient(...)` construction failed. -/
  | clientError
  /-- The call `pygame.mixer.init()` failed. -/
  | pygameError
  /-- The call `pyttsx3.init()` (or voice configuration) failed. -/
  | pyttsx3InitFailed
  /-- A non-`FileNotFoundError` I/O error while opening the config file. -/
  | osError
  /-- Parsing via `yaml.safe_load` raised on malformed content. -/
  | yamlError
  /-- pygame playback failed inside `_play_audio_bytes`. -/
  | playbackError
deriving Repr, DecidableEq

/-- Python string truthiness: `None` and the empty string are falsy. -/
def pyFalsy : Option String → Bool
  | none => true
  | some s => s = ""

/-- Python `a or b` on optional strings: falsy `a` yields `b`. -/
def pyOrStr (a b : Option String) : Option String :=
  if pyFalsy a then b else a

/-- Python `a or d` where `d` is a (truthy) string default. -/
def pyStrOr (a : Option String) (d : String) : String :=
  if pyFalsy a then d else a.getD d

/-- Python `str.lower()`, modelled as a character-wise lowercase map. -/
def pyLower (s : String) : String :=
  ⟨s.data.map Char.toLower⟩

/-- The `speech.voice` sub-record of the configuration tree.
`rate` and `volume` are indexed directly by the code (`voice_config['rate']`),
`voice_id` is read with `.get` and may be absent. -/
structure VoiceConfig where
  rate : Int
  volume : Rat
  voice_id : Option String
deriving Repr, DecidableEq

/-- The `speech` section. `engine` is read with `.get('engine', 'hume')`,
so an absent key is `none`. -/
structure SpeechConfig where
  engine : Option String
  voice : VoiceConfig
deriving Repr, DecidableEq

/-- The `hume.tts` sub-record; every field the code reads with `.get`. -/
structure TtsSection where
  format : Option String
  instant_mode : Bool
  num_generations : Option Nat
  speed : Rat
  voice_description : Option String
deriving Repr, DecidableEq

/-- The `hume` section of the configuration tree. -/
structure HumeSection where
  api_key : Option String
  base_url : String
  tts : TtsSection
deriving Repr, DecidableEq

/-- The whole configuration tree (`config.yaml` shape used by the code). -/
structure Config where
  speech : SpeechConfig
  hume : HumeSection
deriving Repr, DecidableEq

/-- Embeds `TextToSpeech._default_config`. -/
def default_config : Config :=
  { speech :=
      { engine := some "hume"
        voice := { rate := 200, volume := (9 : Rat) / 10, voice_id := some "ito" } }
    hume :=
      { api_key := none
        base_url := "https://api.hume.ai/v0"
        tts :=
          { format := some "mp3"
            instant_mode := true
            num_generations := some 1
            speed := 1
            voice_description := none } } }

/-- Outcome of opening and parsing the configuration file at a given path. -/
inductive FileOutcome where
  /-- Opening raised `FileNotFoundError`. -/
  | missing
  /-- Opening or reading raised some other `OSError` (e.g. a permission error). -/
  | unreadable
  /-- The file was read but `yaml.safe_load` raised. -/
  | parseError
  /-- The file was read and parsed into a configuration tree. -/
  | parsed (c : Config)
deriving Repr, DecidableEq

/-- Embeds `TextToSpeech._load_config`: only `FileNotFoundError` is caught and
replaced by the default tree; every other error propagates. -/
def load_config : FileOutcome → Except PyError Config
  | .missing => .ok default_config
  | .unreadable => .error .osError
  | .parseError => .error .yamlError
  | .parsed c => .ok c

/-- One voice record as enumerated by the local pyttsx3 engine. -/
structure PyVoice where
  id : String
  name : String
deriving Repr, DecidableEq

/-- The live pyttsx3 engine handle with its mutable properties. -/
structure Pyttsx3Engine where
  rate : Int
  volume : Rat
  voice : Option String
  voices : List PyVoice
deriving Repr, DecidableEq

/-- The live Hume SDK client handle. -/
structure HumeClient where
  api_key : String
deriving Repr, DecidableEq

/-- A tag mapping attached to a provider voice record. -/
abbrev TagMap := List (String × String)

/-- One entry of the canonical voice dictionary built by
`get_available_voices`. `tags := none` models a dictionary with no
`"tags"` key at all (the hardcoded fallback entries and the pyttsx3
entries); `tags := some m` models a present `"tags"` key. -/
structure Voice where
  id : String
  name : String
  provider : String
  tags : Option TagMap
deriving Repr, DecidableEq

/-- One provider record from the Hume voice-listing endpoint. `name` is an
optional attribute whose value may be empty; `provider` and `tags` are
attributes read with `getattr(_, _, default)` and may be absent. -/
structure HumeVoiceRec where
  id : String
  name : Option String
  provider : Option String
  tags : Option TagMap
deriving Repr, DecidableEq

/-- Result of reading and JSON-parsing the on-disk voice cache file. -/
inductive CacheRead where
  /-- The file exists but parsing failed, or it is not a dict with a
  `"voices"` key. -/
  | malformed
  /-- The file parses to `{"voices": vs}`. -/
  | voices (vs : List Voice)
deriving Repr, DecidableEq

/-- One generation in the provider's synthesis response. -/
structure Generation where
  audio : String
deriving Repr, DecidableEq

/-- The provider's synthesis response. -/
structure SynthResponse where
  generations : List Generation
deriving Repr, DecidableEq

/-- Audio format chosen for a synthesis request. -/
inductive AudioFormat where
  | mp3
  | wav
deriving Repr, DecidableEq

/-- One utterance as submitted to the provider (`PostedUtterance` plus the
voice object). -/
structure PostedUtterance where
  text : String
  description : String
  voice_id : String
deriving Repr, DecidableEq

/-- The external world: every I/O the embedded code performs. -/
structure Env where
  /-- Value of `os.environ.get('HUME_API_KEY')`. -/
  humeApiKeyEnv : Option String
  /-- whether `HumeClient(api_key=...)` construction succeeds. -/
  humeClientOk : Bool
  /-- whether `pygame.mixer.init()` succeeds. -/
  pygameInitOk : Bool
  /-- The `pyttsx3.init()` outcome: `none` means it (or the subsequent voice
  configuration) raised. -/
  pyttsx3Init : Option Pyttsx3Engine
  /-- whether pyttsx3 `setProperty` calls succeed. -/
  pyttsx3SetPropOk : Bool
  /-- whether pyttsx3 `say`/`runAndWait` succeeds. -/
  pyttsx3SayOk : Bool
  /-- The `hume_client.tts.synthesize_json` outcome for a given request. -/
  humeSynth : PostedUtterance × AudioFormat × Nat → Except Unit SynthResponse
  /-- whether pygame playback succeeds inside `_play_audio_bytes`. -/
  playbackOk : Bool
  /-- Function `base64.b64decode`, treated as an abstract total function on the
  payload string. -/
  b64decode : String → String
  /-- the on-disk voice cache: `none` means the file does not exist. -/
  cacheFile : Option CacheRead
  /-- The `hume_client.tts.voices.list(provider="HUME_AI")` outcome, already
  drained to a list. -/
  humeVoicesList : Except Unit (List HumeVoiceRec)

/-- The `TextToSpeech` object's fields. -/
structure TextToSpeech where
  config : Config
  pyttsx3_engine : Option Pyttsx3Engine
  hume_client : Option HumeClient
deriving Repr, DecidableEq

/-- The object as it stands right after `_load_config`, before
`_initialize_engines` runs. -/
def mkTTS (c : Config) : TextToSpeech :=
  { config := c, pyttsx3_engine := none, hume_client := none }

/-- Embeds `self.config.get('speech', ...).get('engine', 'hume')`. -/
def getEngineType (c : Config) : String :=
  c.speech.engine.getD "hume"

/-- Embeds `self.config['speech']['engine'] = v`. -/
def setEngine (s : TextToSpeech) (v : String) : TextToSpeech :=
  { s with config :=
      { s.config with speech := { s.config.speech with engine := some v } } }

/-- Embeds `TextToSpeech._configure_pyttsx3_voice`, acting on the fresh engine
handle: sets rate and volume from the configuration, then picks the first
installed voice whose id contains the configured (truthy) voice_id. -/
def configure_pyttsx3_voice (e : Pyttsx3Engine) (c : Config) : Pyttsx3Engine :=
  let vc := c.speech.voice
  let e1 := { e with rate := vc.rate, volume := vc.volume }
  if pyFalsy vc.voice_id then e1
  else
    let vid := vc.voice_id.getD ""
    match e.voices.find? (fun v => decide (vid.toList <:+: v.id.toList)) with
    | some v => { e1 with voice := some v.id }
    | none => e1

/-- Embeds `TextToSpeech._initialize_pyttsx3`: assigns the engine handle and
configures it; a startup failure is logged and re-raised. -/
def init_pyttsx3 (env : Env) (s : TextToSpeech) :
    Except PyError TextToSpeech :=
  match env.pyttsx3Init with
  | none => .error .pyttsx3InitFailed
  | some e =>
      .ok { s with pyttsx3_engine := some (configure_pyttsx3_voice e s.config) }

/-- The `try` body of `_initialize_hume`: resolves the credential
(environment first, configuration second, empty strings falsy), constructs
the client, initializes the pygame mixer. Returns the object state reached
together with whether an exception escaped the body; note that when pygame
initialization fails the client handle has already been assigned. -/
def hume_attempt (env : Env) (s : TextToSpeech) : TextToSpeech × Bool :=
  let apiKey := pyOrStr env.humeApiKeyEnv s.config.hume.api_key
  if pyFalsy apiKey then (s, true)
  else if env.humeClientOk = false then (s, true)
  else
    let s1 := { s with hume_client := some { api_key := apiKey.getD "" } }
    if env.pygameInitOk = false then (s1, true) else (s1, false)

/-- Embeds `TextToSpeech._initialize_hume`: on any exception in the body, writes
`'pyttsx3'` into `config['speech']['engine']` in place and falls back to
`_initialize_pyttsx3` (whose own failure propagates). -/
def init_hume (env : Env) (s : TextToSpeech) :
    Except PyError TextToSpeech :=
  let r := hume_attempt env s
  if r.2 then init_pyttsx3 env (setEngine r.1 "pyttsx3")
  else .ok r.1

/-- Embeds `TextToSpeech._initialize_engines`: dispatches on the configured engine
name; only the exact value `'hume'` selects the Hume path. -/
def init_engines (env : Env) (s : TextToSpeech) :
    Except PyError TextToSpeech :=
  if getEngineType s.config = "hume" then init_hume env s
  else init_pyttsx3 env s

/-- Embeds `TextToSpeech.__init__` after `_load_config`: runs engine
initialization on the fresh object. -/
def newTTS (env : Env) (c : Config) : Except PyError TextToSpeech :=
  init_engines env (mkTTS c)

/-- Module-level initialization in `app.py` / `app_swagger.py`:
`tts = TextToSpeech()` wrapped in `try/except` setting `tts = None`. -/
def appInit (env : Env) (c : Config) : Option TextToSpeech :=
  (newTTS env c).toOption

/-- Result of one `speak` call: the returned boolean together with the
payloads handed to `_play_audio_bytes` (so "playback was invoked" is
observable). -/
structure SpeakOutcome where
  success : Bool
  played : List String
deriving Repr, DecidableEq

/-- The synthesis request `_speak_with_hume` builds from the current
configuration: voice id (default `'ito'`), description (configured value if
truthy, else `"Natural conversational tone"`), format (`wav` only when the
configured value lowercases to `'wav'`, else mp3) and generation count
(default 1). -/
def hume_request (c : Config) (text : String) :
    PostedUtterance × AudioFormat × Nat :=
  let vc := c.speech.voice
  let tc := c.hume.tts
  let utterance : PostedUtterance :=
    { text := text
      description := pyStrOr tc.voice_description "Natural conversational tone"
      voice_id := vc.voice_id.getD "ito" }
  let fmt := if pyLower (tc.format.getD "mp3") = "wav" then AudioFormat.wav
             else AudioFormat.mp3
  (utterance, fmt, tc.num_generations.getD 1)

/-- Embeds `TextToSpeech._speak_with_hume`: submits the request; with at least one
generation, decodes the first generation's audio and hands it to
`_play_audio_bytes` (whose failure is re-raised and caught by the outer
`except`, yielding `False`); with zero generations returns `False` without
touching playback; any provider exception also yields `False`. -/
def speak_with_hume (env : Env) (s : TextToSpeech) (text : String) :
    SpeakOutcome :=
  match env.humeSynth (hume_request s.config text) with
  | .error _ => { success := false, played := [] }
  | .ok resp =>
    match resp.generations with
    | [] => { success := false, played := [] }
    | g :: _ =>
      let audio_bytes := env.b64decode g.audio
      if env.playbackOk then { success := true, played := [audio_bytes] }
      else { success := false, played := [audio_bytes] }

/-- Embeds `TextToSpeech._speak_with_pyttsx3`: guards on the engine handle, then
`say`/`runAndWait` with exceptions converted to `False`. -/
def speak_with_pyttsx3 (env : Env) (s : TextToSpeech) : SpeakOutcome :=
  match s.pyttsx3_engine with
  | none => { success := false, played := [] }
  | some _ =>
      if env.pyttsx3SayOk then { success := true, played := [] }
      else { success := false, played := [] }

/-- Embeds `TextToSpeech.speak`: dispatches on the configured engine name AND the
presence of the corresponding handle; any other combination logs
"No TTS engine available" and returns `False`. -/
def speak (env : Env) (s : TextToSpeech) (text : String) : SpeakOutcome :=
  let engine_type := getEngineType s.config
  if engine_type = "hume" ∧ s.hume_client.isSome then
    speak_with_hume env s text
  else if engine_type = "pyttsx3" ∧ s.pyttsx3_engine.isSome then
    speak_with_pyttsx3 env s
  else
    { success := false, played := [] }

/-- The hardcoded degraded-mode voice list of `get_available_voices`; note
these dictionaries carry no `"tags"` key. -/
def fallback_voices : List Voice :=
  [ { id := "ito", name := "Ito - Conversational", provider := "hume",
      tags := none },
    { id := "dacher", name := "Dacher - Warm and approachable",
      provider := "hume", tags := none },
    { id := "aiden", name := "Aiden - Confident and clear",
      provider := "hume", tags := none },
    { id := "dorothy", name := "Dorothy - Friendly and engaging",
      provider := "hume", tags := none } ]

/-- The per-record mapping of a provider voice into the canonical shape:
`name` is `f"{voice.name or voice.id} - Hume Voice"`, `provider` defaults to
`'hume'`, `tags` defaults to the empty mapping (key always present). -/
def mapHumeVoice (v : HumeVoiceRec) : Voice :=
  { id := v.id
    name := pyStrOr v.name v.id ++ " - Hume Voice"
    provider := v.provider.getD "hume"
    tags := some (v.tags.getD []) }

/-- Result of one `get_available_voices` call, with a flag recording
whether the provider's listing endpoint was consulted. -/
structure VoicesOutcome where
  voices : List Voice
  networkCalled : Bool
deriving Repr, DecidableEq

/-- Embeds `TextToSpeech.get_available_voices`: on the Hume path, a well-formed
cache short-circuits everything; otherwise the provider listing is mapped
into canonical shape (and cached best-effort), and any listing error yields
the hardcoded fallback list. Otherwise, with a pyttsx3 handle present, the
local engine's voices are enumerated; with no handle at all, the empty
list. -/
def get_available_voices (env : Env) (s : TextToSpeech) : VoicesOutcome :=
  let engine_type := getEngineType s.config
  if engine_type = "hume" ∧ s.hume_client.isSome then
    match env.cacheFile with
    | some (.voices vs) => { voices := vs, networkCalled := false }
    | _ =>
      match env.humeVoicesList with
      | .ok recs => { voices := recs.map mapHumeVoice, networkCalled := true }
      | .error _ => { voices := fallback_voices, networkCalled := true }
  else
    match s.pyttsx3_engine with
    | some e =>
        { voices := e.voices.map (fun v =>
            { id := v.id, name := v.name, provider := "pyttsx3", tags := none })
          networkCalled := false }
    | none => { voices := [], networkCalled := false }

/-- Embeds `voice['name'].split(' -')[0]`: the display name before its first
`" -"` decoration. -/
def stripDecoration (name : String) : String :=
  (name.splitOn " -").headD name

/-- The lookup `get_voice_id_by_name` performs over a voice list: tier 1
case-insensitive full-name equality, tier 2 equality against the stripped
base name, tier 3 substring containment; each tier takes its first hit. -/
def resolve_id_by_name (voices : List Voice) (voice_name : String) :
    Option String :=
  match voices.find? (fun v => pyLower v.name = pyLower voice_name) with
  | some v => some v.id
  | none =>
    let vl := pyLower voice_name
    match voices.find? (fun v => pyLower (stripDecoration v.name) = vl) with
    | some v => some v.id
    | none =>
      match voices.find? (fun v =>
          decide (vl.data <:+: (pyLower v.name).data)) with
      | some v => some v.id
      | none => none

/-- Embeds `TextToSpeech.get_voice_id_by_name`. -/
def get_voice_id_by_name (env : Env) (s : TextToSpeech) (n : String) :
    Option String :=
  resolve_id_by_name (get_available_voices env s).voices n

/-- Embeds `TextToSpeech.get_voice_name_choices`. -/
def get_voice_name_choices (env : Env) (s : TextToSpeech) : List String :=
  (get_available_voices env s).voices.map (fun v => stripDecoration v.name)

/-- Result of one `set_voice_properties` call: the returned boolean and the
object state afterwards. -/
structure SetPropsOutcome where
  result : Bool
  state : TextToSpeech
deriving Repr, DecidableEq

/-- The pyttsx3 branch of `set_voice_properties`: each provided field is
applied to the live engine handle and mirrored into the configuration, in
the order rate, volume, voice_id; a `setProperty` exception (modelled as
failing on the first attempted call) is caught, yielding `False`. -/
def set_props_pyttsx3 (env : Env) (s : TextToSpeech)
    (rate : Option Int) (volume : Option Rat) (voice_id : Option String) :
    SetPropsOutcome :=
  if env.pyttsx3SetPropOk = false ∧
      (rate.isSome ∨ volume.isSome ∨ voice_id.isSome) then
    { result := false, state := s }
  else
    let s1 := match rate with
      | some r =>
          { s with
            pyttsx3_engine := s.pyttsx3_engine.map (fun e => { e with rate := r })
            config := { s.config with speech := { s.config.speech with
              voice := { s.config.speech.voice with rate := r } } } }
      | none => s
    let s2 := match volume with
      | some v =>
          { s1 with
            pyttsx3_engine := s1.pyttsx3_engine.map (fun e => { e with volume := v })
            config := { s1.config with speech := { s1.config.speech with
              voice := { s1.config.speech.voice with volume := v } } }}
      | none => s1
    let s3 := match voice_id with
      | some vid =>
          { s2 with
            pyttsx3_engine := s2.pyttsx3_engine.map (fun e => { e with voice := some vid })
            config := { s2.config with speech := { s2.config.speech with
              voice := { s2.config.speech.voice with voice_id := some vid } } }}
      | none => s2
    { result := true, state := s3 }

/-- Embeds `TextToSpeech.set_voice_properties`: the `'hume'` branch writes only
`voice_id` and `voice_description` into the configuration and returns
`True` unconditionally (the client handle is never consulted); the
`'pyttsx3'` branch requires the engine handle; every other combination
returns `False`. -/
def set_voice_properties (env : Env) (s : TextToSpeech)
    (rate : Option Int) (volume : Option Rat) (voice_id : Option String)
    (voice_description : Option String) : SetPropsOutcome :=
  let engine_type := getEngineType s.config
  if engine_type = "hume" then
    let s1 := match voice_id with
      | some vid =>
          { s with config := { s.config with speech := { s.config.speech with
              voice := { s.config.speech.voice with voice_id := some vid } } } }
      | none => s
    let s2 := match voice_description with
      | some d =>
          { s1 with config := { s1.config with hume := { s1.config.hume with
              tts := { s1.config.hume.tts with voice_description := some d } } } }
      | none => s1
    { result := true, state := s2 }
  else if engine_type = "pyttsx3" ∧ s.pyttsx3_engine.isSome then
    set_props_pyttsx3 env s rate volume voice_id
  else
    { result := false, state := s }

/-- The record returned by `get_engine_info`. -/
structure EngineInfo where
  engine : String
  available : Bool
  voice_id : Option String
  hume_available : Bool
  pyttsx3_available : Bool
deriving Repr, DecidableEq

/-- Embeds `TextToSpeech.get_engine_info`: a pure read of the current state. -/
def get_engine_info (s : TextToSpeech) : EngineInfo :=
  let engine_type := getEngineType s.config
  { engine := engine_type
    available := if engine_type = "hume" then s.hume_client.isSome
                 else s.pyttsx3_engine.isSome
    voice_id := s.config.speech.voice.voice_id
    hume_available := s.hume_client.isSome
    pyttsx3_available := s.pyttsx3_engine.isSome }

/-- Response of the `/speak` endpoint of `app.py` / `app_swagger.py`. -/
inductive AppResp where
  /-- HTTP 500 `{"error": "TTS not initialized"}`. -/
  | errNotInitialized
  /-- HTTP 500 `{"error": "Failed to speak text"}`. -/
  | errSpeakFailed
  /-- HTTP 200 success. -/
  | ok
deriving Repr, DecidableEq

/-- The `/speak` endpoint body: a `None` facade reports unavailability. -/
def app_speak (env : Env) (tts : Option TextToSpeech) (text : String) :
    AppResp :=
  match tts with
  | none => .errNotInitialized
  | some t => if (speak env t text).success then .ok else .errSpeakFailed

/-! ## Concrete fixtures for witnesses and counterexamples -/

/-- A concrete local engine handle with one installed voice. -/
def testEngine : Pyttsx3Engine :=
  { rate := 100, volume := 1, voice := none,
    voices := [{ id := "english", name := "English (US)" }] }

/-- A fully healthy external world with a credential in the environment,
no cache file and a failing listing endpoint. -/
def env0 : Env :=
  { humeApiKeyEnv := some "test-key"
    humeClientOk := true
    pygameInitOk := true
    pyttsx3Init := some testEngine
    pyttsx3SetPropOk := true
    pyttsx3SayOk := true
    humeSynth := fun _ => .error ()
    playbackOk := true
    b64decode := fun b => b
    cacheFile := none
    humeVoicesList := .error () }

/-- Like `env0` but with no `HUME_API_KEY` in the environment. -/
def envNoKey : Env := { env0 with humeApiKeyEnv := none }

/-- Like `envNoKey` but with the local engine also failing to start. -/
def envNoKeyNoLocal : Env := { envNoKey with pyttsx3Init := none }

/-- Like `env0` but the provider synthesizes zero generations. -/
def envZeroGen : Env := { env0 with humeSynth := fun _ => .ok { generations := [] } }

/-- A sample cached voice list. -/
def cachedSample : List Voice :=
  [ { id := "v1", name := "Custom - Hume Voice", provider := "hume",
      tags := some [] } ]

/-- Like `env0` but with a well-formed voice cache on disk. -/
def envCached : Env := { env0 with cacheFile := some (.voices cachedSample) }

/-- A facade in cloud mode with a live client handle. -/
def sHumeClient : TextToSpeech :=
  { config := default_config, pyttsx3_engine := none,
    hume_client := some { api_key := "test-key" } }

/-- A facade whose configuration says cloud but whose client handle is
absent (e.g. after an external engine switch back to `'hume'`). -/
def sHumeNoClient : TextToSpeech :=
  { config := default_config, pyttsx3_engine := none, hume_client := none }

/-- The default configuration with the engine name replaced by a typo. -/
def cfgFoo : Config :=
  { default_config with
    speech := { default_config.speech with engine := some "foo" } }

/-! ## Small structural lemmas -/

theorem mkTTS_config (c : Config) : (mkTTS c).config = c := rfl

theorem mkTTS_pyttsx3_engine (c : Config) : (mkTTS c).pyttsx3_engine = none := rfl

theorem mkTTS_hume_client (c : Config) : (mkTTS c).hume_client = none := rfl

/-! ## C1: dispatch on an unknown engine name -/

/-- C1 counterexample: with a healthy environment, constructing with
`speech.engine = "foo"` silently selects the LOCAL engine (no cloud client
is built, a pyttsx3 handle is), while constructing with `"hume"` selects
the cloud engine — an unknown value does not behave like `cloud`. -/
theorem c1_counterexample :
    ((newTTS env0 cfgFoo).toOption.map
      (fun t => (t.hume_client.isSome, t.pyttsx3_engine.isSome))) =
        some (false, true) ∧
    ((newTTS env0 default_config).toOption.map
      (fun t => (t.hume_client.isSome, t.pyttsx3_engine.isSome))) =
        some (true, false) := by
  decide

/-- C1 amended: any engine value other than the exact string `"hume"`
selects the local (`pyttsx3`) initialization path at construction, and at
`speak` dispatch a value that is neither `"hume"` nor `"pyttsx3"` matches
no branch and fails; only an absent `engine` key defaults to the cloud
engine. -/
theorem c1_amended_thm (env : Env) (c : Config) (s : TextToSpeech)
    (v : String) (text : String)
    (hv : v ≠ "hume") (hv' : v ≠ "pyttsx3")
    (hc : c.speech.engine = some v) (hs : s.config.speech.engine = some v) :
    init_engines env (mkTTS c) = init_pyttsx3 env (mkTTS c) ∧
    speak env s text = { success := false, played := [] } ∧
    getEngineType { c with speech := { c.speech with engine := none } } =
      "hume" := by
  refine ⟨?_, ?_, rfl⟩
  · simp [init_engines, getEngineType, mkTTS_config, hc, hv]
  · simp [speak, getEngineType, hs, hv, hv']

/-- Witness for `c1_amended_thm` at the typo value `"foo"`. -/
theorem c1_amended_witness :
    ("foo" ≠ "hume") ∧ ("foo" ≠ "pyttsx3") ∧
    cfgFoo.speech.engine = some "foo" ∧
    (init_engines env0 (mkTTS cfgFoo) =
        init_pyttsx3 env0 (mkTTS cfgFoo) ∧
      speak env0 (mkTTS cfgFoo) "hi" = { success := false, played := [] } ∧
      getEngineType
          { cfgFoo with speech := { cfgFoo.speech with engine := none } } =
        "hume") :=
  ⟨by decide, by decide, rfl,
    c1_amended_thm env0 cfgFoo (mkTTS cfgFoo) "foo" "hi"
      (by decide) (by decide) rfl rfl⟩

/-! ## C9: configuration load fallback -/

/-- C9 counterexample: an unreadable (but existing) configuration file —
any `OSError` other than `FileNotFoundError` — propagates out of
`_load_config` instead of yielding the default tree. -/
theorem c9_counterexample :
    load_config .unreadable = .error .osError ∧
    load_config .unreadable ≠ .ok default_config := by
  decide

/-- C9 amended: `_load_config` returns the hardcoded default tree
(engine `hume`, rate 200, volume 0.9, voice `ito`, format mp3, one
generation, speed 1.0) exactly for a missing file; an unreadable file or
malformed YAML propagates, and parsed content is returned as-is. -/
theorem c9_amended_thm :
    load_config .missing = .ok default_config ∧
    default_config.speech.engine = some "hume" ∧
    default_config.speech.voice.rate = 200 ∧
    default_config.speech.voice.volume = (9 : Rat) / 10 ∧
    default_config.speech.voice.voice_id = some "ito" ∧
    default_config.hume.tts.format = some "mp3" ∧
    default_config.hume.tts.num_generations = some 1 ∧
    default_config.hume.tts.speed = 1 ∧
    load_config .unreadable = .error .osError ∧
    load_config .parseError = .error .yamlError ∧
    (∀ c, load_config (.parsed c) = .ok c) := by
  refine ⟨rfl, rfl, rfl, by norm_num [default_config], rfl, rfl, rfl, rfl,
    rfl, rfl, fun c => rfl⟩

/-! ## C3: set_voice_properties and the engine handles -/

/-- C3 counterexample: with the cloud engine active in the configuration
but NO live cloud client handle, `set_voice_properties` still returns
success — it never consults the handle — contradicting "returns failure
iff the underlying engine handle is absent". -/
theorem c3_counterexample :
    sHumeNoClient.hume_client = none ∧
    getEngineType sHumeNoClient.config = "hume" ∧
    (set_voice_properties env0 sHumeNoClient none none none none).result
      = true := by
  decide

/-- C3 amended: the cloud branch of `set_voice_properties` returns success
unconditionally (the cloud client handle is never checked); only the local
branch guards on its handle — absent local handle means failure, present
handle with succeeding property writes means success — and an engine name
matching neither branch means failure. -/
theorem c3_amended_thm (env : Env) (s : TextToSpeech)
    (rate : Option Int) (volume : Option Rat) (voice_id : Option String)
    (desc : Option String) :
    (getEngineType s.config = "hume" →
      (set_voice_properties env s rate volume voice_id desc).result = true) ∧
    (getEngineType s.config = "pyttsx3" → s.pyttsx3_engine = none →
      (set_voice_properties env s rate volume voice_id desc).result = false) ∧
    (getEngineType s.config = "pyttsx3" → s.pyttsx3_engine.isSome = true →
      env.pyttsx3SetPropOk = true →
      (set_voice_properties env s rate volume voice_id desc).result = true) ∧
    (getEngineType s.config ≠ "hume" → getEngineType s.config ≠ "pyttsx3" →
      (set_voice_properties env s rate volume voice_id desc).result
        = false) := by
  refine ⟨fun h => ?_, fun h hn => ?_, fun h hs hok => ?_, fun h h' => ?_⟩
  · simp [set_voice_properties, h]
  · simp [set_voice_properties, h, hn]
  · simp [set_voice_properties, set_props_pyttsx3, h, hs, hok]
  · simp [set_voice_properties, h, h']

/-- Witness for `c3_amended_thm`: the cloud branch returns success even
with no client handle. -/
theorem c3_amended_witness :
    getEngineType sHumeNoClient.config = "hume" ∧
    (set_voice_properties env0 sHumeNoClient none none none none).result
      = true :=
  ⟨rfl, (c3_amended_thm env0 sHumeNoClient none none none none).1 rfl⟩

/-! ## C5: zero generations means failure without playback -/

/-- C5: a cloud `speak` call whose provider response carries zero
generations returns `False` (no exception) and never invokes
`_play_audio_bytes`. -/
theorem c5_thm (env : Env) (s : TextToSpeech) (text : String)
    (heng : getEngineType s.config = "hume")
    (hcl : s.hume_client.isSome = true)
    (hzero : env.humeSynth (hume_request s.config text)
      = .ok { generations := [] }) :
    speak env s text = { success := false, played := [] } := by
  simp [speak, speak_with_hume, heng, hcl, hzero]

/-- Witness for `c5_thm` on a provider that returns zero generations. -/
theorem c5_witness :
    getEngineType sHumeClient.config = "hume" ∧
    sHumeClient.hume_client.isSome = true ∧
    envZeroGen.humeSynth (hume_request sHumeClient.config "hello")
      = .ok { generations := [] } ∧
    speak envZeroGen sHumeClient "hello"
      = { success := false, played := [] } :=
  ⟨rfl, rfl, rfl, c5_thm envZeroGen sHumeClient "hello" rfl rfl rfl⟩

/-! ## C6: degraded-mode fallback voice list -/

/-- Whether the cache read yields a well-formed `{"voices": ...}` dict. -/
def cacheUsable : Option CacheRead → Bool
  | some (.voices _) => true
  | _ => false

/-- C6 counterexample: on a listing error the fallback list is returned,
but none of its four entries carries a `tags` key — the claimed canonical
`{id, name, provider, tags}` shape does not hold for them. -/
theorem c6_counterexample :
    (get_available_voices env0 sHumeClient).voices = fallback_voices ∧
    (get_available_voices env0 sHumeClient).voices.map Voice.tags
      = [none, none, none, none] := by
  decide

/-- C6 amended: on any voice-listing error with no usable cache, the cloud
path of `get_available_voices` returns (never raises) the hardcoded list of
exactly 4 well-known voices, each `{id, name, provider := "hume"}` and
WITHOUT a `tags` key. -/
theorem c6_amended_thm (env : Env) (s : TextToSpeech)
    (heng : getEngineType s.config = "hume")
    (hcl : s.hume_client.isSome = true)
    (hcache : cacheUsable env.cacheFile = false)
    (herr : env.humeVoicesList = .error ()) :
    get_available_voices env s
      = { voices := fallback_voices, networkCalled := true } ∧
    fallback_voices.length = 4 ∧
    (∀ v ∈ fallback_voices, v.provider = "hume" ∧ v.tags = none) := by
  refine ⟨?_, by decide, by decide⟩
  cases hc : env.cacheFile with
  | none => simp [get_available_voices, heng, hcl, hc, herr]
  | some cr =>
    cases cr with
    | malformed => simp [get_available_voices, heng, hcl, hc, herr]
    | voices vs => rw [hc] at hcache; simp [cacheUsable] at hcache

/-- Witness for `c6_amended_thm` on a failing listing endpoint. -/
theorem c6_amended_witness :
    cacheUsable env0.cacheFile = false ∧
    env0.humeVoicesList = .error () ∧
    get_available_voices env0 sHumeClient
      = { voices := fallback_voices, networkCalled := true } :=
  ⟨rfl, rfl, (c6_amended_thm env0 sHumeClient rfl rfl rfl rfl).1⟩

/-! ## C7: cache round-trip -/

/-- C7: with the cloud engine active and a well-formed cache file
`{"voices": vs}` on disk, `get_available_voices` returns exactly `vs`,
unchanged, without consulting the provider's listing endpoint. -/
theorem c7_thm (env : Env) (s : TextToSpeech) (vs : List Voice)
    (heng : getEngineType s.config = "hume")
    (hcl : s.hume_client.isSome = true)
    (hcache : env.cacheFile = some (.voices vs)) :
    get_available_voices env s = { voices := vs, networkCalled := false } := by
  simp [get_available_voices, heng, hcl, hcache]

/-- Witness for `c7_thm` on a concrete cached list. -/
theorem c7_witness :
    envCached.cacheFile = some (.voices cachedSample) ∧
    get_available_voices envCached sHumeClient
      = { voices := cachedSample, networkCalled := false } :=
  ⟨rfl, c7_thm envCached sHumeClient cachedSample rfl rfl rfl⟩

/-! ## C8: cloud set_properties(rate=250) is a no-op frame -/

/-- C8: with the cloud engine active, `set_voice_properties(rate=250)`
returns success and leaves the entire object state — in particular the
configuration's rate field and every other field — unchanged. -/
theorem c8_thm (env : Env) (s : TextToSpeech)
    (heng : getEngineType s.config = "hume") :
    set_voice_properties env s (some 250) none none none
      = { result := true, state := s } := by
  simp [set_voice_properties, heng]

/-- Witness for `c8_thm` on the default cloud-mode facade. -/
theorem c8_witness :
    getEngineType sHumeClient.config = "hume" ∧
    set_voice_properties env0 sHumeClient (some 250) none none none
      = { result := true, state := sHumeClient } :=
  ⟨rfl, c8_thm env0 sHumeClient rfl⟩

/-! ## C4: resolve_id_by_name versus list_voices -/

/-- A list with two distinct voices sharing one display name. -/
def dupVoices : List Voice :=
  [ { id := "a", name := "X", provider := "hume", tags := none },
    { id := "b", name := "X", provider := "hume", tags := none } ]

/-- C4 counterexample: when two voices share the display name `"X"`,
resolving the second voice's exact display name returns the FIRST voice's
id `"a"`, not its own id `"b"`. -/
theorem c4_counterexample :
    ({ id := "b", name := "X", provider := "hume", tags := none } : Voice)
      ∈ dupVoices ∧
    resolve_id_by_name dupVoices "X" = some "a" := by
  decide

/-- Tier-1 lookup hits the voice itself when display names are pairwise
distinct up to case. -/
theorem find_name_self (voices : List Voice) (v : Voice)
    (hv : v ∈ voices)
    (hd : voices.Pairwise (fun a b => pyLower a.name ≠ pyLower b.name)) :
    voices.find? (fun w => pyLower w.name = pyLower v.name) = some v := by
  induction voices with
  | nil => cases hv
  | cons h t ih =>
    rcases List.pairwise_cons.mp hd with ⟨hh, ht⟩
    by_cases hcase : pyLower h.name = pyLower v.name
    · have hveq : v = h := by
        rcases List.mem_cons.mp hv with rfl | hvt
        · rfl
        · exact absurd hcase (hh v hvt)
      rw [List.find?_cons_of_pos _ (by simp [hcase])]
      rw [hveq]
    · have hvt : v ∈ t := by
        rcases List.mem_cons.mp hv with rfl | hvt
        · exact absurd rfl hcase
        · exact hvt
      rw [List.find?_cons_of_neg _ (by simp [hcase])]
      exact ih hvt ht

/-- C4 amended: resolving a listed voice's exact display name returns the
id of the FIRST voice in listing order whose display name matches it
case-insensitively; hence when display names are pairwise distinct up to
case, it returns that voice's own id. -/
theorem c4_amended_thm (voices : List Voice) (v : Voice)
    (hv : v ∈ voices)
    (hd : voices.Pairwise (fun a b => pyLower a.name ≠ pyLower b.name)) :
    resolve_id_by_name voices v.name = some v.id := by
  unfold resolve_id_by_name
  rw [find_name_self voices v hv hd]

/-- Witness for `c4_amended_thm` on the hardcoded fallback list (whose
display names are pairwise distinct). -/
theorem c4_amended_witness :
    ({ id := "dacher", name := "Dacher - Warm and approachable",
        provider := "hume", tags := none } : Voice) ∈ fallback_voices ∧
    resolve_id_by_name fallback_voices "Dacher - Warm and approachable"
      = some "dacher" :=
  ⟨by decide,
    c4_amended_thm fallback_voices
      { id := "dacher", name := "Dacher - Warm and approachable",
        provider := "hume", tags := none } (by decide) (by decide)⟩

/-! ## C2: missing credential, fallback, and the Failed state -/

/-- With no usable credential anywhere, the `try` body of
`_initialize_hume` raises before touching any handle. -/
theorem hume_attempt_nokey (env : Env) (s : TextToSpeech)
    (hkey : pyFalsy env.humeApiKeyEnv = true)
    (hcfg : pyFalsy s.config.hume.api_key = true) :
    hume_attempt env s = (s, true) := by
  simp [hume_attempt, pyOrStr, hkey, hcfg]

/-- C2: with neither the environment credential nor the
configuration-supplied credential present and the cloud engine configured,
cloud initialization fails internally (`InitError`) and the constructor
falls back — exactly once, cloud to local — to the local engine: when the
local engine starts, the facade comes up local with no cloud client; when
the local engine also fails, construction fails, the boundary layer holds
no facade, and every subsequent `speak` reports unavailability. -/
theorem c2_thm (env : Env) (c : Config)
    (hkey : pyFalsy env.humeApiKeyEnv = true)
    (hcfg : pyFalsy c.hume.api_key = true)
    (heng : getEngineType c = "hume") :
    (∀ e, env.pyttsx3Init = some e →
      ∃ t, appInit env c = some t ∧ t.hume_client = none ∧
        t.pyttsx3_engine.isSome = true ∧
        getEngineType t.config = "pyttsx3") ∧
    (env.pyttsx3Init = none →
      appInit env c = none ∧
      ∀ text, app_speak env (appInit env c) text = .errNotInitialized) := by
  have hA : hume_attempt env (mkTTS c) = (mkTTS c, true) :=
    hume_attempt_nokey env (mkTTS c) hkey hcfg
  have hrun : newTTS env c
      = init_pyttsx3 env (setEngine (mkTTS c) "pyttsx3") := by
    simp [newTTS, init_engines, mkTTS_config, heng, init_hume, hA]
  constructor
  · intro e he
    have hsome : appInit env c
        = some { setEngine (mkTTS c) "pyttsx3" with
            pyttsx3_engine := some (configure_pyttsx3_voice e
              (setEngine (mkTTS c) "pyttsx3").config) } := by
      simp [appInit, hrun, init_pyttsx3, he, Except.toOption]
    exact ⟨_, hsome, rfl, rfl, rfl⟩
  · intro hnone
    have hn : appInit env c = none := by
      simp [appInit, hrun, init_pyttsx3, hnone, Except.toOption]
    exact ⟨hn, fun text => by simp [app_speak, hn]⟩

/-- Witness for `c2_thm`: no credential anywhere, local engine healthy. -/
theorem c2_witness :
    pyFalsy envNoKey.humeApiKeyEnv = true ∧
    pyFalsy default_config.hume.api_key = true ∧
    getEngineType default_config = "hume" ∧
    (∃ t, appInit envNoKey default_config = some t ∧ t.hume_client = none ∧
      t.pyttsx3_engine.isSome = true ∧
      getEngineType t.config = "pyttsx3") :=
  ⟨rfl, rfl, rfl,
    (c2_thm envNoKey default_config rfl rfl rfl).1 testEngine rfl⟩

/-! ## C10: the in-place engine overwrite on cloud failure -/

/-- The `try` body of `_initialize_hume` leaves the configuration tree and
the local engine handle untouched. -/
theorem hume_attempt_frame (env : Env) (s : TextToSpeech) :
    (hume_attempt env s).1.config = s.config ∧
    (hume_attempt env s).1.pyttsx3_engine = s.pyttsx3_engine := by
  simp only [hume_attempt]
  split_ifs <;> simp

/-- C10: whenever the cloud initialization attempt fails during
construction (missing credential, client construction failure, or mixer
failure) and the local engine starts, the constructor has overwritten
`config['speech']['engine']` in place with `'pyttsx3'` while leaving the
rest of the tree intact, so `engine_info` reports the local engine as
active and available, `speak` dispatches to the local engine,
`get_available_voices` enumerates the local engine (no cache or network),
and `set_voice_properties` follows the local branch (a rate write now
lands in the configuration). -/
theorem c10_thm (env : Env) (c : Config) (e : Pyttsx3Engine)
    (heng : getEngineType c = "hume")
    (hfail : (hume_attempt env (mkTTS c)).2 = true)
    (hpy : env.pyttsx3Init = some e) :
    ∃ t, newTTS env c = .ok t ∧
      t.config.speech.engine = some "pyttsx3" ∧
      t.config.speech.voice = c.speech.voice ∧
      t.config.hume = c.hume ∧
      (get_engine_info t).engine = "pyttsx3" ∧
      (get_engine_info t).available = true ∧
      (∀ text, speak env t text = speak_with_pyttsx3 env t) ∧
      (∀ env2 : Env, (get_available_voices env2 t).networkCalled = false) ∧
      (∀ env2 : Env, env2.pyttsx3SetPropOk = true →
        (set_voice_properties env2 t (some 250) none none
            none).state.config.speech.voice.rate = 250 ∧
        (set_voice_properties env2 t (some 250) none none
            none).result = true) := by
  rcases hframe : hume_attempt env (mkTTS c) with ⟨s1, b⟩
  have hs1c : s1.config = c := by
    have h := (hume_attempt_frame env (mkTTS c)).1
    rw [hframe] at h
    exact h
  have hrun : newTTS env c = .ok { setEngine s1 "pyttsx3" with
      pyttsx3_engine := some (configure_pyttsx3_voice e
        (setEngine s1 "pyttsx3").config) } := by
    rw [hframe] at hfail
    simp only [newTTS, init_engines, mkTTS_config, heng, if_pos]
    simp [init_hume, hframe, hfail, init_pyttsx3, hpy]
  refine ⟨_, hrun, rfl, ?_, ?_, rfl, rfl, fun text => ?_, fun env2 => ?_,
    fun env2 hok => ?_⟩
  · simp [setEngine, hs1c]
  · simp [setEngine, hs1c]
  · simp [speak, getEngineType, setEngine]
  · simp [get_available_voices, getEngineType, setEngine]
  · constructor <;>
      simp [set_voice_properties, set_props_pyttsx3, getEngineType,
        setEngine, hok]

/-- Witness for `c10_thm`: credential absent, local engine healthy. -/
theorem c10_witness :
    getEngineType default_config = "hume" ∧
    (hume_attempt envNoKey (mkTTS default_config)).2 = true ∧
    envNoKey.pyttsx3Init = some testEngine ∧
    (∃ t, newTTS envNoKey default_config = .ok t ∧
      t.config.speech.engine = some "pyttsx3" ∧
      t.config.speech.voice = default_config.speech.voice ∧
      t.config.hume = default_config.hume ∧
      (get_engine_info t).engine = "pyttsx3" ∧
      (get_engine_info t).available = true ∧
      (∀ text, speak envNoKey t text = speak_with_pyttsx3 envNoKey t) ∧
      (∀ env2 : Env, (get_available_voices env2 t).networkCalled = false) ∧
      (∀ env2 : Env, env2.pyttsx3SetPropOk = true →
        (set_voice_properties env2 t (some 250) none none
            none).state.config.speech.voice.rate = 250 ∧
        (set_voice_properties env2 t (some 250) none none
            none).result = true)) := by
  refine ⟨rfl, by decide, rfl, ?_⟩
  exact c10_thm envNoKey default_config testEngine rfl (by decide) rfl

end CorpusSpeech
